import Mathlib

/-!
Shallow embedding of `gltf-json/src/extensions/material.rs` (the only source
file of this repository slice) together with the collaborator behaviour the
spec assigns to the out-of-src modules (`crate::validation`, `gltf_derive`,
serde).  Numeric `f32` components carry no arithmetic in this slice (they are
only stored and, per the source, never range-checked), so they are modelled
exactly by `ℚ`.
-/

/-- A model of the serialized wire values (JSON).  The generic
serialization library is an out-of-scope collaborator per spec §1; this type
records only the shapes the schema layer can observe. -/
inductive Json where
  | null : Json
  | bool (b : Bool) : Json
  | num (q : ℚ) : Json
  | str (s : String) : Json
  | arr (elems : List Json) : Json
  | obj (members : List (String × Json)) : Json

/-- Wire-level type name of a JSON value, used in type-mismatch messages. -/
def Json.typeName : Json → String
  | .null => "null"
  | .bool _ => "boolean"
  | .num _ => "number"
  | .str _ => "string"
  | .arr _ => "array"
  | .obj _ => "object"

/-- Whether a JSON value is string-typed. -/
def Json.isStr : Json → Bool
  | .str _ => true
  | _ => false

/-- Decode-time (shape) errors: per spec §7 these abort the enclosing decode.
Modelled from the spec: serde errors are produced by the collaborator
library; the schema layer only distinguishes a type mismatch and a
wrong-length tuple. -/
inductive DeError where
  | invalidType (unexpected : String) (expected : String) : DeError
  | invalidLength (len : Nat) (expected : String) : DeError
deriving DecidableEq, Repr

/-- The `Checked<T>` wrapper from `crate::validation` (declaration not under
src/; its two-variant shape is fixed by the spec §3 and by the `use
crate::validation::Checked::*` arms in `material.rs`). -/
inductive Checked (α : Type) where
  | Valid (x : α) : Checked α
  | Invalid : Checked α
deriving DecidableEq, Repr

/-- Rust `enum ColorSpace { SRGB, Linear }` (material.rs lines 42-46). -/
inductive ColorSpace where
  | SRGB : ColorSpace
  | Linear : ColorSpace
deriving DecidableEq, Repr

/-- Source `pub const VALID_COLOR_SPACES: &[&str] = &["sRGB", "linear"]`
(material.rs line 48). -/
def VALID_COLOR_SPACES : List String := ["sRGB", "linear"]

/-- Source `impl Default for ColorSpace` (material.rs lines 92-96). -/
def ColorSpace.default : ColorSpace := ColorSpace.Linear

/-- Source `impl Serialize for ColorSpace` (material.rs lines 50-60): `SRGB`
serializes as the string `"sRGB"`, `Linear` as `"linear"`. -/
def ColorSpace.serialize : ColorSpace → Json
  | .SRGB => Json.str "sRGB"
  | .Linear => Json.str "linear"

/-- The `visit_str` arm of the `Checked<ColorSpace>` deserialization visitor
(material.rs lines 75-86): a Rust string `match` is a sequence of equality
tests against the literals, with a catch-all producing `Invalid`. -/
def visit_str (value : String) : Checked ColorSpace :=
  if value = "sRGB" then Checked.Valid ColorSpace.SRGB
  else if value = "linear" then Checked.Valid ColorSpace.Linear
  else Checked.Invalid

/-- The `expecting` message of the visitor (material.rs lines 71-73). -/
def colorSpaceExpecting : String := "any of: [\"sRGB\", \"linear\"]"

/-- Source `impl Deserialize for Checked<ColorSpace>` (material.rs lines
62-90): `deserializer.deserialize_str(Visitor)` hands a string to
`visit_str`; for any non-string wire value the visitor (which implements
only `visit_str`) receives the library's default `visit_*` behaviour, which
fails with a type-mismatch error naming the `expecting` description. -/
def deserializeCheckedColorSpace : Json → Except DeError (Checked ColorSpace)
  | .str s => Except.ok (visit_str s)
  | j => Except.error (DeError.invalidType j.typeName colorSpaceExpecting)

/-- One step of a validation error path (`crate::Path`, an out-of-scope
collaborator per spec §6): a field name or a sequence index. -/
inductive PathStep where
  | field (name : String) : PathStep
  | index (i : Nat) : PathStep
deriving DecidableEq, Repr

/-- A validation error path: the sequence of field-name / index steps from
the document root (spec §2). -/
abbrev VPath := List PathStep

/-- The validation error kind (`crate::validation::Error`, not under src/).
Modelled from the spec: the only kind this slice produces is `Invalid`
(unrecognized enumeration value / out-of-range value, spec §7). -/
inductive ValidationError where
  | invalid : ValidationError
deriving DecidableEq, Repr

/-- Modelled from the spec: the `Validate` impl for `Checked<T>` lives in
`crate::validation`, which is not under src/.  Spec §4.2: "report `Invalid`
exactly once if the stored variant is `Invalid`; report nothing if
`Valid`." -/
def Checked.validate (c : Checked α) (path : VPath) :
    List (VPath × ValidationError) :=
  match c with
  | .Valid _ => []
  | .Invalid => [(path, ValidationError.invalid)]

/-- Modelled from the spec: `Default for Checked<T>` (crate::validation, not
under src/) wraps the underlying type's default, so that fields absent from
the input are "default-populated" (spec §3) with a `Valid` value. -/
def Checked.defaultOf (d : α) : Checked α := Checked.Valid d

/-- Spec §4.2 default behaviour for optional fields: "validate the contained
value if present; do nothing if absent". -/
def validateOption (f : α → VPath → List (VPath × ValidationError))
    (o : Option α) (path : VPath) : List (VPath × ValidationError) :=
  match o with
  | none => []
  | some x => f x path

/-- Plain strings carry no validation rule (the attribute-name fields of
`PbrAttributes` are unconstrained, spec §3). -/
def validateString (_s : String) (_path : VPath) :
    List (VPath × ValidationError) := []

/-- The `texture::Info` collaborator, treated as opaque per spec §1/§6. -/
structure TextureInfo where

/-- Validation of the opaque `texture::Info` collaborator contributes
nothing observable in this slice (spec §1: semantic texture validation is
out of scope). -/
def TextureInfo.validate (_t : TextureInfo) (_path : VPath) :
    List (VPath × ValidationError) := []

/-- Serialized form of the opaque `texture::Info` collaborator. -/
def TextureInfo.serialize (_t : TextureInfo) : Json := Json.obj []

/-- Decoding of the opaque `texture::Info` collaborator (never fails in
this model; its fields are out of scope per spec §1). -/
def TextureInfo.deserialize (_j : Json) : Except DeError TextureInfo :=
  Except.ok ⟨⟩

/-- The `crate::Extras` collaborator: opaque application-specific data
(spec §6), optional on the wire. -/
abbrev Extras := Option Json

/-- Default `Extras`: absent. -/
def Extras.default : Extras := none

/-- Source `pub struct PbrDiffuseFactor(pub [f32; 4])` (material.rs lines
182-184): a newtype over four components. -/
structure PbrDiffuseFactor where
  components : Fin 4 → ℚ

/-- Source `impl Default for PbrDiffuseFactor` (material.rs lines 186-191):
`[1.0, 1.0, 1.0, 1.0]`. -/
def PbrDiffuseFactor.default : PbrDiffuseFactor := ⟨![1, 1, 1, 1]⟩

/-- Source `impl Validate for PbrDiffuseFactor {}` (material.rs lines
193-194): the impl block is EMPTY, so the type only has the `Validate`
trait's default methods.  Those defaults (in `crate::validation`, not under
src/) are generic over the implementing type and therefore cannot inspect
the four components; a node with no custom rule and no recursed-into
children contributes nothing (spec §4.2).  Hence validating a diffuse
factor reports no errors, whatever its components: no range check is
performed. -/
def PbrDiffuseFactor.validate (_f : PbrDiffuseFactor) (_path : VPath) :
    List (VPath × ValidationError) := []

/-- Serialized form of a diffuse factor: the four components as a JSON
array (serde's encoding of `[f32; 4]`). -/
def PbrDiffuseFactor.serialize (f : PbrDiffuseFactor) : Json :=
  Json.arr [Json.num (f.components 0), Json.num (f.components 1),
    Json.num (f.components 2), Json.num (f.components 3)]

/-- Decoding of a diffuse factor: serde's `[f32; 4]` requires an array of
exactly four numbers. -/
def PbrDiffuseFactor.deserialize : Json → Except DeError PbrDiffuseFactor
  | .arr [a, b, c, d] => do
      let qa ← match a with
        | .num q => Except.ok q
        | j => Except.error (DeError.invalidType j.typeName "f32")
      let qb ← match b with
        | .num q => Except.ok q
        | j => Except.error (DeError.invalidType j.typeName "f32")
      let qc ← match c with
        | .num q => Except.ok q
        | j => Except.error (DeError.invalidType j.typeName "f32")
      let qd ← match d with
        | .num q => Except.ok q
        | j => Except.error (DeError.invalidType j.typeName "f32")
      Except.ok ⟨![qa, qb, qc, qd]⟩
  | .arr xs => Except.error (DeError.invalidLength xs.length "an array of 4 numbers")
  | j => Except.error (DeError.invalidType j.typeName "an array of 4 numbers")

/-- Source `pub struct PbrSpecularFactor(pub [f32; 3])` (material.rs lines
197-199): a newtype over three components. -/
structure PbrSpecularFactor where
  components : Fin 3 → ℚ

/-- Source `impl Default for PbrSpecularFactor` (material.rs lines 201-206):
`[1.0, 1.0, 1.0]`. -/
def PbrSpecularFactor.default : PbrSpecularFactor := ⟨![1, 1, 1]⟩

/-- Source `impl Validate for PbrSpecularFactor {}` (material.rs lines
208-209): empty impl, identical situation to `PbrDiffuseFactor.validate`:
no range check is performed and validation reports nothing. -/
def PbrSpecularFactor.validate (_f : PbrSpecularFactor) (_path : VPath) :
    List (VPath × ValidationError) := []

/-- Serialized form of a specular factor. -/
def PbrSpecularFactor.serialize (f : PbrSpecularFactor) : Json :=
  Json.arr [Json.num (f.components 0), Json.num (f.components 1),
    Json.num (f.components 2)]

/-- Decoding of a specular factor: an array of exactly three numbers. -/
def PbrSpecularFactor.deserialize : Json → Except DeError PbrSpecularFactor
  | .arr [a, b, c] => do
      let qa ← match a with
        | .num q => Except.ok q
        | j => Except.error (DeError.invalidType j.typeName "f32")
      let qb ← match b with
        | .num q => Except.ok q
        | j => Except.error (DeError.invalidType j.typeName "f32")
      let qc ← match c with
        | .num q => Except.ok q
        | j => Except.error (DeError.invalidType j.typeName "f32")
      Except.ok ⟨![qa, qb, qc]⟩
  | .arr xs => Except.error (DeError.invalidLength xs.length "an array of 3 numbers")
  | j => Except.error (DeError.invalidType j.typeName "an array of 3 numbers")

/-- Modelled from the spec: `crate::material::StrengthFactor` (the
glossiness scalar, consumed from the out-of-src material module) is a
newtype over one `f32` with "expected range [0,1]" (spec §3); its
validation reports one `Invalid` when the value lies outside `[0, 1]`. -/
structure StrengthFactor where
  value : ℚ

/-- Modelled from the spec: default glossiness (full glossiness `1.0`,
material.rs doc comment on `glossiness_factor`). -/
def StrengthFactor.default : StrengthFactor := ⟨1⟩

/-- Modelled from the spec: range validation of the glossiness scalar
(spec §3 "expected range [0,1]"; the type lives outside src/). -/
def StrengthFactor.validate (f : StrengthFactor) (path : VPath) :
    List (VPath × ValidationError) :=
  if f.value < 0 ∨ 1 < f.value then [(path, ValidationError.invalid)] else []

/-- Serialized form of the glossiness scalar. -/
def StrengthFactor.serialize (f : StrengthFactor) : Json := Json.num f.value

/-- Decoding of the glossiness scalar: a number. -/
def StrengthFactor.deserialize : Json → Except DeError StrengthFactor
  | .num q => Except.ok ⟨q⟩
  | j => Except.error (DeError.invalidType j.typeName "f32")

/-- Source `struct PbrAttributes` (material.rs lines 98-114): a required
`Checked<ColorSpace>` plus six optional attribute-name strings; serde
renames all fields to camelCase and `#[serde(default)]` populates absent
fields with defaults. -/
structure PbrAttributes where
  base_color_attrib_space : Checked ColorSpace
  base_color_attrib : Option String
  roughness_attrib : Option String
  metallic_attrib : Option String
  occlusion_attrib : Option String
  emissive_attrib : Option String
  shadow_attrib : Option String

/-- Derived `Default` for `PbrAttributes` (material.rs line 98): all
options `None`, the checked colour space `Valid(Linear)` (= default). -/
def PbrAttributes.default : PbrAttributes :=
  ⟨Checked.defaultOf ColorSpace.default, none, none, none, none, none, none⟩

/-- Modelled from the spec: the derived `Validate` for `PbrAttributes`
(`#[derive(Validate)]`, gltf_derive is not under src/) recurses into every
child field in declaration order, extending the path with the field's
serialized camelCase name (spec §4.2; the spec §2 example path ends in
`baseColorAttribSpace`).  Strings and absent options contribute nothing. -/
def PbrAttributes.validate (a : PbrAttributes) (path : VPath) :
    List (VPath × ValidationError) :=
  a.base_color_attrib_space.validate (path ++ [PathStep.field "baseColorAttribSpace"])
    ++ validateOption validateString a.base_color_attrib (path ++ [PathStep.field "baseColorAttrib"])
    ++ validateOption validateString a.roughness_attrib (path ++ [PathStep.field "roughnessAttrib"])
    ++ validateOption validateString a.metallic_attrib (path ++ [PathStep.field "metallicAttrib"])
    ++ validateOption validateString a.occlusion_attrib (path ++ [PathStep.field "occlusionAttrib"])
    ++ validateOption validateString a.emissive_attrib (path ++ [PathStep.field "emissiveAttrib"])
    ++ validateOption validateString a.shadow_attrib (path ++ [PathStep.field "shadowAttrib"])

/-- A JSON object member for an optional field carrying serde's
`skip_serializing_if = "Option::is_none"`: `None` emits no member at all
(material.rs serde attributes; spec §4.3). -/
def optMember (key : String) (f : α → Json) : Option α → List (String × Json)
  | none => []
  | some x => [(key, f x)]

/-- Modelled from the spec (§4.1): only the `Valid` variant of `Checked<T>`
is meaningful to re-serialize; encoding `Invalid` is a caller error,
modelled as `none`. -/
def Checked.serializeWith (f : α → Json) : Checked α → Option Json
  | .Valid x => some (f x)
  | .Invalid => none

/-- Derived `Serialize` for `PbrAttributes` (camelCase member names; the
checked colour space is always emitted, the six option fields only when
present). -/
def PbrAttributes.serialize (a : PbrAttributes) : Option Json :=
  (a.base_color_attrib_space.serializeWith ColorSpace.serialize).map fun s =>
    Json.obj ([("baseColorAttribSpace", s)]
      ++ optMember "baseColorAttrib" Json.str a.base_color_attrib
      ++ optMember "roughnessAttrib" Json.str a.roughness_attrib
      ++ optMember "metallicAttrib" Json.str a.metallic_attrib
      ++ optMember "occlusionAttrib" Json.str a.occlusion_attrib
      ++ optMember "emissiveAttrib" Json.str a.emissive_attrib
      ++ optMember "shadowAttrib" Json.str a.shadow_attrib)

/-- Member lookup inside a decoded JSON object (first occurrence wins). -/
def lookupMember (kvs : List (String × Json)) (key : String) : Option Json :=
  (kvs.find? fun kv => kv.1 == key).map fun kv => kv.2

/-- Decoding a field carrying `#[serde(default)]`: an absent member takes
the field's default value; a present member must decode. -/
def memberOrDefault (kvs : List (String × Json)) (key : String)
    (f : Json → Except DeError α) (d : α) : Except DeError α :=
  match lookupMember kvs key with
  | none => Except.ok d
  | some j => f j

/-- Decoding an `Option<T>` field with `default`: an absent or `null`
member gives `none`; any other member must decode to `some`. -/
def optionalMember (kvs : List (String × Json)) (key : String)
    (f : Json → Except DeError α) : Except DeError (Option α) :=
  match lookupMember kvs key with
  | none => Except.ok none
  | some Json.null => Except.ok none
  | some j => (f j).map some

/-- Decoding of a plain string field. -/
def deserializeString : Json → Except DeError String
  | .str s => Except.ok s
  | j => Except.error (DeError.invalidType j.typeName "a string")

/-- Derived `Deserialize` for `PbrAttributes` (material.rs lines 98-114):
camelCase member names, struct-level `default`, unknown members ignored
(serde's behaviour absent `deny_unknown_fields`). -/
def PbrAttributes.deserialize : Json → Except DeError PbrAttributes
  | .obj kvs => do
      let space ← memberOrDefault kvs "baseColorAttribSpace"
        deserializeCheckedColorSpace (Checked.defaultOf ColorSpace.default)
      let bca ← optionalMember kvs "baseColorAttrib" deserializeString
      let ra ← optionalMember kvs "roughnessAttrib" deserializeString
      let ma ← optionalMember kvs "metallicAttrib" deserializeString
      let oa ← optionalMember kvs "occlusionAttrib" deserializeString
      let ea ← optionalMember kvs "emissiveAttrib" deserializeString
      let sa ← optionalMember kvs "shadowAttrib" deserializeString
      Except.ok ⟨space, bca, ra, ma, oa, ea, sa⟩
  | j => Except.error (DeError.invalidType j.typeName "struct PbrAttributes")

/-- Source `struct AAShadow` (material.rs lines 116-120): one optional
texture reference. -/
structure AAShadow where
  shadow_texture : Option TextureInfo

/-- Derived `Validate` for `AAShadow` (field name camelCased per the
derive's path construction). -/
def AAShadow.validate (s : AAShadow) (path : VPath) :
    List (VPath × ValidationError) :=
  validateOption TextureInfo.validate s.shadow_texture
    (path ++ [PathStep.field "shadowTexture"])

/-- Derived `Serialize` for `AAShadow`. -/
def AAShadow.serialize (s : AAShadow) : Json :=
  Json.obj (optMember "shadowTexture" TextureInfo.serialize s.shadow_texture)

/-- Derived `Deserialize` for `AAShadow`. -/
def AAShadow.deserialize : Json → Except DeError AAShadow
  | .obj kvs => do
      let st ← optionalMember kvs "shadowTexture" TextureInfo.deserialize
      Except.ok ⟨st⟩
  | j => Except.error (DeError.invalidType j.typeName "struct AAShadow")

/-- Source `struct Unlit {}` (material.rs lines 212-214): an empty marker
struct. -/
structure Unlit where

/-- Derived `Validate` for the field-less `Unlit`. -/
def Unlit.validate (_u : Unlit) (_path : VPath) :
    List (VPath × ValidationError) := []

/-- Derived `Serialize` for the field-less `Unlit`. -/
def Unlit.serialize (_u : Unlit) : Json := Json.obj []

/-- Derived `Deserialize` for the field-less `Unlit`. -/
def Unlit.deserialize : Json → Except DeError Unlit
  | .obj _ => Except.ok ⟨⟩
  | j => Except.error (DeError.invalidType j.typeName "struct Unlit")

/-- Source `struct PbrMetallicRoughness {}` (material.rs lines 39-40):
field-less placeholder. -/
structure PbrMetallicRoughness where

/-- Source `struct NormalTexture {}` (material.rs lines 174-175):
field-less placeholder. -/
structure NormalTexture where

/-- Source `struct OcclusionTexture {}` (material.rs lines 178-179):
field-less placeholder. -/
structure OcclusionTexture where

/-- Source `struct PbrSpecularGlossiness` (material.rs lines 128-171),
compiled with the `KHR_materials_pbrSpecularGlossiness` feature enabled. -/
structure PbrSpecularGlossiness where
  diffuse_factor : PbrDiffuseFactor
  diffuse_texture : Option TextureInfo
  specular_factor : PbrSpecularFactor
  glossiness_factor : StrengthFactor
  specular_glossiness_texture : Option TextureInfo
  extras : Extras

/-- Derived `Default` for `PbrSpecularGlossiness` (material.rs line 129):
every field takes its own default. -/
def PbrSpecularGlossiness.default : PbrSpecularGlossiness :=
  ⟨PbrDiffuseFactor.default, none, PbrSpecularFactor.default,
    StrengthFactor.default, none, Extras.default⟩

/-- Derived `Validate` for `PbrSpecularGlossiness`: recurse into every
field in declaration order with camelCase path segments (spec §4.2); the
opaque extras contribute nothing. -/
def PbrSpecularGlossiness.validate (v : PbrSpecularGlossiness) (path : VPath) :
    List (VPath × ValidationError) :=
  v.diffuse_factor.validate (path ++ [PathStep.field "diffuseFactor"])
    ++ validateOption TextureInfo.validate v.diffuse_texture
        (path ++ [PathStep.field "diffuseTexture"])
    ++ v.specular_factor.validate (path ++ [PathStep.field "specularFactor"])
    ++ v.glossiness_factor.validate (path ++ [PathStep.field "glossinessFactor"])
    ++ validateOption TextureInfo.validate v.specular_glossiness_texture
        (path ++ [PathStep.field "specularGlossinessTexture"])

/-- Derived `Serialize` for `PbrSpecularGlossiness` (camelCase names;
texture references and extras skipped when absent). -/
def PbrSpecularGlossiness.serialize (v : PbrSpecularGlossiness) : Json :=
  Json.obj ([("diffuseFactor", v.diffuse_factor.serialize)]
    ++ optMember "diffuseTexture" TextureInfo.serialize v.diffuse_texture
    ++ [("specularFactor", v.specular_factor.serialize)]
    ++ [("glossinessFactor", v.glossiness_factor.serialize)]
    ++ optMember "specularGlossinessTexture" TextureInfo.serialize
        v.specular_glossiness_texture
    ++ optMember "extras" id v.extras)

/-- Derived `Deserialize` for `PbrSpecularGlossiness` (struct-level
`default`; unknown members ignored). -/
def PbrSpecularGlossiness.deserialize : Json → Except DeError PbrSpecularGlossiness
  | .obj kvs => do
      let d ← memberOrDefault kvs "diffuseFactor" PbrDiffuseFactor.deserialize
        PbrDiffuseFactor.default
      let dt ← optionalMember kvs "diffuseTexture" TextureInfo.deserialize
      let s ← memberOrDefault kvs "specularFactor" PbrSpecularFactor.deserialize
        PbrSpecularFactor.default
      let g ← memberOrDefault kvs "glossinessFactor" StrengthFactor.deserialize
        StrengthFactor.default
      let st ← optionalMember kvs "specularGlossinessTexture" TextureInfo.deserialize
      let ex ← optionalMember kvs "extras" (fun j => Except.ok j)
      Except.ok ⟨d, dt, s, g, st, ex⟩
  | j => Except.error (DeError.invalidType j.typeName "struct PbrSpecularGlossiness")

/-- Source `struct Material` (material.rs lines 11-35), compiled with all
features enabled: four independent optional extension slots, each renamed
to its reserved extension key and skipped on serialization when `None`. -/
structure Material where
  pbr_specular_glossiness : Option PbrSpecularGlossiness
  unlit : Option Unlit
  ext_pbr_attributes : Option PbrAttributes
  aa_shadow : Option AAShadow

/-- Derived `Default` for `Material` (material.rs line 11): every slot
`None`. -/
def Material.default : Material := ⟨none, none, none, none⟩

/-- Derived `Validate` for `Material` (spec §4.3: the slot structure
contributes no errors of its own; it recurses into each present payload in
declaration order using the extension's own key as the next path segment,
as in the spec §2 example `…extensions.EXT_pbr_attributes.baseColorAttribSpace`). -/
def Material.validate (m : Material) (path : VPath) :
    List (VPath × ValidationError) :=
  validateOption PbrSpecularGlossiness.validate m.pbr_specular_glossiness
      (path ++ [PathStep.field "KHR_materials_pbrSpecularGlossiness"])
    ++ validateOption Unlit.validate m.unlit
        (path ++ [PathStep.field "KHR_materials_unlit"])
    ++ validateOption PbrAttributes.validate m.ext_pbr_attributes
        (path ++ [PathStep.field "EXT_pbr_attributes"])
    ++ validateOption AAShadow.validate m.aa_shadow
        (path ++ [PathStep.field "AA_shadow"])

/-- An extension-slot member whose payload itself may fail to serialize
(the `PbrAttributes` payload contains a `Checked` value). -/
def optMemberM (key : String) (f : α → Option Json) :
    Option α → Option (List (String × Json))
  | none => some []
  | some x => (f x).map fun j => [(key, j)]

/-- Derived `Serialize` for `Material` (material.rs lines 11-35): each slot
is renamed to its extension key and carries
`skip_serializing_if = "Option::is_none"`, so a `None` slot emits no member
at all. -/
def Material.serialize (m : Material) : Option Json := do
  let a := optMember "KHR_materials_pbrSpecularGlossiness"
    PbrSpecularGlossiness.serialize m.pbr_specular_glossiness
  let b := optMember "KHR_materials_unlit" Unlit.serialize m.unlit
  let c ← optMemberM "EXT_pbr_attributes" PbrAttributes.serialize
    m.ext_pbr_attributes
  let d := optMember "AA_shadow" AAShadow.serialize m.aa_shadow
  pure (Json.obj (a ++ b ++ c ++ d))

/-- Derived `Deserialize` for `Material` (material.rs lines 11-35): each
slot decodes only from its own reserved key; members under any other key
are ignored (serde's behaviour absent `deny_unknown_fields`; spec §4.3). -/
def Material.deserialize : Json → Except DeError Material
  | .obj kvs => do
      let psg ← optionalMember kvs "KHR_materials_pbrSpecularGlossiness"
        PbrSpecularGlossiness.deserialize
      let ul ← optionalMember kvs "KHR_materials_unlit" Unlit.deserialize
      let ea ← optionalMember kvs "EXT_pbr_attributes" PbrAttributes.deserialize
      let sh ← optionalMember kvs "AA_shadow" AAShadow.deserialize
      Except.ok ⟨psg, ul, ea, sh⟩
  | j => Except.error (DeError.invalidType j.typeName "struct Material")

/-- Validating any option-of-string field reports nothing. -/
theorem validateOption_string (o : Option String) (p : VPath) :
    validateOption validateString o p = [] := by
  cases o <;> rfl

/-- C1: Deserializing a `Checked<ColorSpace>` from a JSON string never
fails: `"sRGB"` gives `Valid SRGB`, `"linear"` gives `Valid Linear`, and any
other string gives `Invalid` rather than a decode error. -/
theorem C1_string_decode_never_fails (s : String)
    (h1 : s ≠ "sRGB") (h2 : s ≠ "linear") :
    deserializeCheckedColorSpace (Json.str "sRGB")
        = Except.ok (Checked.Valid ColorSpace.SRGB) ∧
    deserializeCheckedColorSpace (Json.str "linear")
        = Except.ok (Checked.Valid ColorSpace.Linear) ∧
    deserializeCheckedColorSpace (Json.str s) = Except.ok Checked.Invalid := by
  refine ⟨rfl, rfl, ?_⟩
  simp [deserializeCheckedColorSpace, visit_str, h1, h2]

theorem C1_string_decode_never_fails_witness :
    deserializeCheckedColorSpace (Json.str "banana") = Except.ok Checked.Invalid :=
  (C1_string_decode_never_fails "banana" (by decide) (by decide)).2.2

/-- C4: for each wire string in the recognized vocabulary, decoding produces
the matching `Valid` variant and re-serializing that variant reproduces the
identical wire string. -/
theorem C4_roundtrip_on_vocabulary :
    (deserializeCheckedColorSpace (Json.str "sRGB")
        = Except.ok (Checked.Valid ColorSpace.SRGB) ∧
      ColorSpace.serialize ColorSpace.SRGB = Json.str "sRGB") ∧
    (deserializeCheckedColorSpace (Json.str "linear")
        = Except.ok (Checked.Valid ColorSpace.Linear) ∧
      ColorSpace.serialize ColorSpace.Linear = Json.str "linear") :=
  ⟨⟨rfl, rfl⟩, ⟨rfl, rfl⟩⟩

/-- C5: a wire value that is not string-typed fails to decode as
`Checked<ColorSpace>` with a type-mismatch error: the wrapper relaxes value
recognition, not shape. -/
theorem C5_non_string_shape_error (j : Json) (h : j.isStr = false) :
    deserializeCheckedColorSpace j
      = Except.error (DeError.invalidType j.typeName colorSpaceExpecting) := by
  cases j with
  | str s => simp [Json.isStr] at h
  | null => rfl
  | bool b => rfl
  | num q => rfl
  | arr xs => rfl
  | obj kvs => rfl

theorem C5_non_string_shape_error_witness :
    deserializeCheckedColorSpace (Json.num 42)
      = Except.error (DeError.invalidType "number" colorSpaceExpecting) :=
  C5_non_string_shape_error (Json.num 42) rfl

/-- C10: recognition of the `ColorSpace` vocabulary is exact and
case-sensitive: any string differing byte-for-byte from `"sRGB"` and
`"linear"` — including the case variants and the internal variant names —
maps to `Invalid`. -/
theorem C10_recognition_exact_case_sensitive (s : String)
    (h1 : s ≠ "sRGB") (h2 : s ≠ "linear") :
    visit_str s = Checked.Invalid ∧
    visit_str "SRGB" = Checked.Invalid ∧
    visit_str "srgb" = Checked.Invalid ∧
    visit_str "Linear" = Checked.Invalid ∧
    visit_str "LINEAR" = Checked.Invalid := by
  refine ⟨?_, by decide, by decide, by decide, by decide⟩
  simp [visit_str, h1, h2]

theorem C10_recognition_exact_case_sensitive_witness :
    visit_str "sRgb" = Checked.Invalid :=
  (C10_recognition_exact_case_sensitive "sRgb" (by decide) (by decide)).1

/-- C2 (counterexample): the claim "validating a `PbrDiffuseFactor` reports
an error if and only if some component lies outside `[0, 1]`" is false on
the code: the factor `[1.5, 0, 0, 0]` has an out-of-range first component,
yet validation reports no error, because
`impl Validate for PbrDiffuseFactor` is an empty impl (material.rs line
194) and performs no range check. -/
theorem C2_factor_range_check_counterexample :
    ¬ (∀ (p : VPath) (f : PbrDiffuseFactor),
        ((∃ i, f.components i < 0 ∨ 1 < f.components i) ↔ f.validate p ≠ [])) := by
  intro h
  have hbad : ∃ i, (⟨![3/2, 0, 0, 0]⟩ : PbrDiffuseFactor).components i < 0 ∨
      1 < (⟨![3/2, 0, 0, 0]⟩ : PbrDiffuseFactor).components i := by
    refine ⟨0, Or.inr ?_⟩
    show (1 : ℚ) < 3 / 2
    norm_num
  exact (h [] ⟨![3/2, 0, 0, 0]⟩).mp hbad rfl

/-- C2 (amended): validating a `PbrDiffuseFactor` or a `PbrSpecularFactor`
reports no error at all, for any component values: both `Validate` impls
are empty (material.rs lines 194 and 209), so no range check is performed;
in particular the all-in-range factor `[0.5, 0.5, 0.5, 0.5]` yields zero
errors, and so do out-of-range factors. -/
theorem C2_factor_validation_reports_nothing (p : VPath)
    (f : PbrDiffuseFactor) (g : PbrSpecularFactor) :
    f.validate p = [] ∧ g.validate p = [] ∧
    PbrDiffuseFactor.validate ⟨![1/2, 1/2, 1/2, 1/2]⟩ p = [] :=
  ⟨rfl, rfl, rfl⟩

/-- C3: validating a `PbrAttributes` whose `base_color_attrib_space` holds
the `Invalid` variant reports exactly one error, whose path ends in the
field name `baseColorAttribSpace`; when that field is `Valid`, no error at
all is reported (the remaining fields are unconstrained strings). -/
theorem C3_invalid_colorspace_single_error (p : VPath) (a : PbrAttributes) :
    (a.base_color_attrib_space = Checked.Invalid →
      a.validate p
        = [(p ++ [PathStep.field "baseColorAttribSpace"], ValidationError.invalid)]) ∧
    (∀ c, a.base_color_attrib_space = Checked.Valid c → a.validate p = []) := by
  constructor
  · intro h
    simp [PbrAttributes.validate, h, Checked.validate, validateOption_string]
  · intro c h
    simp [PbrAttributes.validate, h, Checked.validate, validateOption_string]

theorem C3_invalid_colorspace_single_error_witness :
    PbrAttributes.validate
        ⟨Checked.Invalid, none, none, none, none, none, none⟩ []
      = [([PathStep.field "baseColorAttribSpace"], ValidationError.invalid)] :=
  (C3_invalid_colorspace_single_error []
    ⟨Checked.Invalid, none, none, none, none, none, none⟩).1 rfl

/-- C6: serializing a `Material` whose extension slots are all `None`
produces an object containing no members at all — no extension key is
emitted, and none is emitted as an explicit null. -/
theorem C6_all_none_material_serializes_empty :
    Material.serialize ⟨none, none, none, none⟩ = some (Json.obj []) := rfl

/-- C7: deserializing a `Material` extensions object that contains an
unknown extension key (`VENDOR_future_extension`) alongside the known
`EXT_pbr_attributes` key succeeds — the unknown key is ignored — and
validating the parsed value reports exactly the error contributed by the
known extension payload (here its unrecognized colour space). -/
theorem C7_unknown_extension_key_ignored :
    Material.deserialize
        (Json.obj
          [("EXT_pbr_attributes",
            Json.obj [("baseColorAttribSpace", Json.str "bogus")]),
           ("VENDOR_future_extension", Json.num 42)])
      = Except.ok
          ⟨none, none,
            some ⟨Checked.Invalid, none, none, none, none, none, none⟩, none⟩ ∧
    Material.validate
        ⟨none, none,
          some ⟨Checked.Invalid, none, none, none, none, none, none⟩, none⟩ []
      = [([PathStep.field "EXT_pbr_attributes",
           PathStep.field "baseColorAttribSpace"], ValidationError.invalid)] :=
  ⟨rfl, rfl⟩

/-- C8: validation is deterministic and order-stable: validating the same
parsed `Material` twice yields identical (path, kind) sequences — the walk
is a pure function of the document value — and the reported list is, by
construction, the concatenation of the four extension slots' reports in
their fixed declaration order. -/
theorem C8_validation_deterministic_and_ordered (p : VPath) (m : Material) :
    m.validate p = m.validate p ∧
    m.validate p =
      validateOption PbrSpecularGlossiness.validate m.pbr_specular_glossiness
          (p ++ [PathStep.field "KHR_materials_pbrSpecularGlossiness"])
        ++ validateOption Unlit.validate m.unlit
            (p ++ [PathStep.field "KHR_materials_unlit"])
        ++ validateOption PbrAttributes.validate m.ext_pbr_attributes
            (p ++ [PathStep.field "EXT_pbr_attributes"])
        ++ validateOption AAShadow.validate m.aa_shadow
            (p ++ [PathStep.field "AA_shadow"]) :=
  ⟨rfl, rfl⟩

/-- C9: the default-constructed `PbrSpecularGlossiness` has diffuse factor
`[1, 1, 1, 1]` and specular factor `[1, 1, 1]`, and validating this default
value reports no error for either factor. -/
theorem C9_default_specular_glossiness :
    PbrSpecularGlossiness.default.diffuse_factor.components = ![1, 1, 1, 1] ∧
    PbrSpecularGlossiness.default.specular_factor.components = ![1, 1, 1] ∧
    PbrDiffuseFactor.validate PbrSpecularGlossiness.default.diffuse_factor [] = [] ∧
    PbrSpecularFactor.validate PbrSpecularGlossiness.default.specular_factor [] = [] :=
  ⟨rfl, rfl, rfl, rfl⟩
